import Mathlib

/-!
# polldiff: a readiness-notification layer over epoll and kqueue

Shallow embedding of `poller-epoll.h`, `poller-kqueue.h` and of the scenarios
of `poller.c`.

* The four operations of each backend are written as *system-call trees*
  (`Prog`): a tree either returns, takes the fatal `err(3)` exit, or issues one
  system call and continues with the kernel's answer.  What a function hands to
  the kernel is therefore a plain value that theorems can talk about.
* `run` executes a tree against any kernel (a step function on a state).
* `Epoll.Model` and `Kqueue.Model` are executable models of the two kernel
  facilities for pipes, following epoll(7) and kqueue(2).  They are the
  environment the program runs in, not part of the program.
-/

namespace Polldiff

/-! ## C integers -/

/-- Value of a mathematical integer stored into a 32-bit signed `int`. -/
def wrapInt32 (x : Int) : Int := (x + 2147483648) % 4294967296 - 2147483648

/-- Conversion of a signed integer to the 64-bit unsigned `uintptr_t`. -/
def toUintptr (x : Int) : Nat := (x % 18446744073709551616).toNat

/-- Range of a 32-bit signed `int`. -/
def IsInt32 (x : Int) : Prop := -2147483648 ≤ x ∧ x < 2147483648

instance (x : Int) : Decidable (IsInt32 x) := by
  unfold IsInt32; exact inferInstance

/-! ## Shared declarations of `poller.c` -/

/-- The `enum poller_mode` of `poller.c`. -/
inductive poller_mode where
  | POLLER_EDGE
  | POLLER_LEVEL
  | POLLER_ONESHOT
  deriving DecidableEq, Repr

/-! ## Kernel constants (system headers) -/

def EPOLL_CLOEXEC : Nat := 524288
def EPOLLIN : Nat := 1
def EPOLLONESHOT : Nat := 1073741824
def EPOLLET : Nat := 2147483648
def EPOLL_CTL_ADD : Int := 1
def EPOLL_CTL_DEL : Int := 2
def EPOLL_CTL_MOD : Int := 3

def EVFILT_READ : Int := -1
def EV_ADD : Nat := 1
def EV_ONESHOT : Nat := 16
def EV_CLEAR : Nat := 32

/-! ## System-call interface -/

/-- The `struct epoll_event`, with the `fd` member of its data union. -/
structure epoll_event where
  events : Nat
  data_fd : Int
  deriving DecidableEq, Repr

/-- The `struct kevent`. -/
structure kevent where
  ident : Nat
  filter : Int
  flags : Nat
  fflags : Nat
  data : Int
  udata : Nat
  deriving DecidableEq, Repr

/-- The `struct timespec`. -/
structure timespec where
  tv_sec : Int
  tv_nsec : Int
  deriving DecidableEq, Repr

/-- A system call together with the arguments the program passes. -/
inductive Syscall where
  | epoll_create1 (flags : Nat)
  | epoll_ctl (epfd : Int) (op : Int) (fd : Int) (ev : epoll_event)
  | epoll_wait (epfd : Int) (maxevents : Int) (timeout : Int)
  | ioctl_FIONREAD (fd : Int)
  | kqueue
  | kevent (kq : Int) (changelist : List kevent) (nevents : Int) (timeout : Option timespec)
  deriving DecidableEq, Repr

/-- What a system call hands back: its return value, the events it wrote to the
caller's event buffer, and the `int` it wrote through the `FIONREAD` pointer. -/
structure Answer where
  ret : Int
  epoll_events : List epoll_event := []
  kevents : List kevent := []
  nread : Option Int := none
  deriving DecidableEq, Repr

/-- A system-call tree. `err` is the `err(3)` exit: diagnostic, then `exit(status)`. -/
inductive Prog (α : Type) where
  | ret (a : α)
  | err (status : Int) (msg : String)
  | call (c : Syscall) (k : Answer → Prog α)

/-- Result of running a program: it returned, it exited through `err`, or a
system call never returned. -/
inductive Outcome (α : Type) where
  | ok (a : α)
  | fatal (status : Int) (msg : String)
  | hang
  deriving DecidableEq, Repr

/-- A kernel: given its state and a system call, the answer and the next state,
or `none` when the call blocks forever. -/
abbrev Kernel (σ : Type) := σ → Syscall → Option (Answer × σ)

/-- Run a system-call tree against a kernel. -/
def run {σ α : Type} (K : Kernel σ) : Prog α → σ → Outcome α × σ
  | .ret a, s => (.ok a, s)
  | .err st msg, s => (.fatal st msg, s)
  | .call c k, s =>
    match K s c with
    | none => (.hang, s)
    | some (a, s1) => run K (k a) s1

/-- The first system call of a tree, if it makes one. -/
def Prog.first_call {α : Type} : Prog α → Option Syscall
  | .call c _ => some c
  | _ => none

/-- Whether a program outcome is the fatal exit. -/
def Outcome.isFatal {α : Type} : Outcome α → Bool
  | .fatal _ _ => true
  | _ => false

/-! ## `poller-epoll.h` -/

namespace Epoll

/-- `poller_create` of `poller-epoll.h`. -/
def poller_create : Prog Int :=
  .call (.epoll_create1 EPOLL_CLOEXEC) fun a =>
    let pfd := a.ret
    if pfd < 0 then .err 1 "epoll create" else .ret pfd

/-- The `switch (mode)` of `poller_add_read` in `poller-epoll.h`. -/
def mode_events : poller_mode → Nat
  | .POLLER_EDGE => EPOLLIN ||| EPOLLET
  | .POLLER_LEVEL => EPOLLIN
  | .POLLER_ONESHOT => EPOLLIN ||| EPOLLONESHOT

/-- `poller_add_read` of `poller-epoll.h`. -/
def poller_add_read (pfd rfd : Int) (mode : poller_mode) : Prog Unit :=
  let ev : epoll_event := { events := mode_events mode, data_fd := rfd }
  .call (.epoll_ctl pfd EPOLL_CTL_ADD rfd ev) fun a =>
    if a.ret < 0 then .err 1 "epoll add" else .ret ()

/-- `poller_rearm_read` of `poller-epoll.h`. -/
def poller_rearm_read (pfd rfd : Int) : Prog Unit :=
  let ev : epoll_event := { events := EPOLLIN ||| EPOLLONESHOT, data_fd := rfd }
  .call (.epoll_ctl pfd EPOLL_CTL_MOD rfd ev) fun a =>
    if a.ret < 0 then .err 1 "epoll mod" else .ret ()

/-- `poller_wait` of `poller-epoll.h`.  `avail` tells whether the caller passed
a non-null pointer; the result is the returned descriptor and the value stored
through `avail`, if one was stored.  The event buffer has room for one event;
its content when the kernel wrote nothing is read as a zeroed event. -/
def poller_wait (pfd : Int) (avail : Bool) (ms : Int) : Prog (Int × Option Int) :=
  .call (.epoll_wait pfd 1 ms) fun a =>
    let ev : epoll_event := a.epoll_events.headD { events := 0, data_fd := 0 }
    let nev := a.ret
    if nev < 0 then .err 1 "epoll wait"
    else if nev = 0 then .ret (-1, none)
    else if avail then
      .call (.ioctl_FIONREAD ev.data_fd) fun b =>
        let nread : Int := b.nread.getD 0
        .ret (ev.data_fd, some nread)
    else .ret (ev.data_fd, none)

end Epoll

/-! ## `poller-kqueue.h` -/

namespace Kqueue

/-- `poller_create` of `poller-kqueue.h`. -/
def poller_create : Prog Int :=
  .call .kqueue fun a =>
    let pfd := a.ret
    if pfd < 0 then .err 1 "kqueue create" else .ret pfd

/-- The `switch (mode)` of `poller_add_read` in `poller-kqueue.h`. -/
def mode_flags : poller_mode → Nat
  | .POLLER_EDGE => EV_ADD ||| EV_CLEAR
  | .POLLER_LEVEL => EV_ADD
  | .POLLER_ONESHOT => EV_ADD ||| EV_ONESHOT

/-- `poller_add_read` of `poller-kqueue.h`. -/
def poller_add_read (pfd rfd : Int) (mode : poller_mode) : Prog Unit :=
  let ev : kevent :=
    { ident := toUintptr rfd, filter := EVFILT_READ, fflags := 0, data := 0, udata := 0,
      flags := mode_flags mode }
  .call (.kevent pfd [ev] 0 none) fun a =>
    if a.ret < 0 then .err 1 "kevent add" else .ret ()

/-- `poller_rearm_read` of `poller-kqueue.h`. -/
def poller_rearm_read (pfd rfd : Int) : Prog Unit :=
  poller_add_read pfd rfd .POLLER_ONESHOT

/-- The timeout computation at the head of `poller_wait` in `poller-kqueue.h`:
`tsp` stays null for a negative `ms`; the product is an `int` product. -/
def wait_timeout (ms : Int) : Option timespec :=
  if ms ≥ 0 then
    some { tv_sec := Int.tdiv ms 1000, tv_nsec := wrapInt32 (Int.tmod ms 1000 * 1000000) }
  else none

/-- `poller_wait` of `poller-kqueue.h`; see `Epoll.poller_wait` for the shape
of the result. -/
def poller_wait (pfd : Int) (avail : Bool) (ms : Int) : Prog (Int × Option Int) :=
  let tsp := wait_timeout ms
  .call (.kevent pfd [] 1 tsp) fun a =>
    let ev : kevent :=
      a.kevents.headD { ident := 0, filter := 0, flags := 0, fflags := 0, data := 0, udata := 0 }
    let nev := a.ret
    if nev < 0 then .err 1 "kevent wait"
    else if nev = 0 then .ret (-1, none)
    else if avail then .ret (wrapInt32 (ev.ident : Int), some ev.data)
    else .ret (wrapInt32 (ev.ident : Int), none)

end Kqueue

/-! ## Environment: pipes and finite maps

The kernel models keep their tables as association lists keyed by descriptor
number.  A pipe is represented by its read end and the number of bytes written
to it and not yet read; its capacity limit is not modelled. -/

/-- Look a key up in a table. -/
def lookup {α : Type} (k : Int) : List (Int × α) → Option α
  | [] => none
  | (k1, v) :: m => if k1 = k then some v else lookup k m

/-- Insert or replace the entry of a key. -/
def store {α : Type} (k : Int) (v : α) : List (Int × α) → List (Int × α)
  | [] => [(k, v)]
  | (k1, v1) :: m => if k1 = k then (k, v) :: m else (k1, v1) :: store k v m

/-- Delete the entry of a key. -/
def erase {α : Type} (k : Int) : List (Int × α) → List (Int × α)
  | [] => []
  | (k1, v1) :: m => if k1 = k then erase k m else (k1, v1) :: erase k m

/-- Whether a descriptor is the read end of a pipe holding unread bytes. -/
def readable (pipes : List (Int × Nat)) (fd : Int) : Bool :=
  match lookup fd pipes with
  | some u => decide (0 < u)
  | none => false

/-- Append a descriptor to a queue unless it is already queued. -/
def enqueue (fd : Int) (q : List Int) : List Int :=
  if fd ∈ q then q else q ++ [fd]

/-- What the scenarios of `poller.c` do between the calls of the poller. -/
inductive Op where
  | write (fd : Int) (n : Nat)
  | read (fd : Int) (k : Nat)
  | wait (ms : Int)
  | rearm (fd : Int)
  deriving DecidableEq, Repr

namespace Epoll

/-- Bits of an event mask that survive the disarming of a one-shot entry
(`EPOLLWAKEUP | EPOLLONESHOT | EPOLLET | EPOLLEXCLUSIVE`). -/
def EP_PRIVATE_BITS : Nat := 4026531840

/-- State of the model: open pipes, the next free descriptor number, the epoll
instance (one per model), its interest list and its ready list. -/
structure Model where
  pipes : List (Int × Nat)
  next_fd : Int
  epfd : Option Int
  items : List (Int × epoll_event)
  rdllist : List Int
  deriving DecidableEq, Repr

/-- A process with no pipe and no epoll instance; 0, 1, 2 are taken. -/
def Model.init : Model :=
  { pipes := [], next_fd := 3, epfd := none, items := [], rdllist := [] }

/-- Whether an interest entry currently asks for `EPOLLIN`. -/
def armed (it : epoll_event) : Bool := decide (it.events &&& EPOLLIN ≠ 0)

/-- Transfer of ready entries to the caller, at most `n` of them: an entry is
polled again when it is visited and skipped if it is not readable; a
level-triggered entry goes back on the ready list, an edge-triggered one does
not, a one-shot one is disarmed.  Returns the events, the interest list and
the new ready list (entries not visited, then the entries put back). -/
def send_events (pipes : List (Int × Nat)) :
    Nat → List Int → List (Int × epoll_event) → List Int →
      List epoll_event × List (Int × epoll_event) × List Int
  | _, [], items, back => ([], items, back)
  | 0, fd :: rest, items, back => ([], items, (fd :: rest) ++ back)
  | n + 1, fd :: rest, items, back =>
    match lookup fd items with
    | none => send_events pipes (n + 1) rest items back
    | some it =>
      if armed it && readable pipes fd then
        let ev : epoll_event := { events := EPOLLIN, data_fd := it.data_fd }
        if it.events &&& EPOLLONESHOT ≠ 0 then
          let r := send_events pipes n rest
            (store fd { events := it.events &&& EP_PRIVATE_BITS, data_fd := it.data_fd } items) back
          (ev :: r.1, r.2.1, r.2.2)
        else if it.events &&& EPOLLET ≠ 0 then
          let r := send_events pipes n rest items back
          (ev :: r.1, r.2.1, r.2.2)
        else
          let r := send_events pipes n rest items (back ++ [fd])
          (ev :: r.1, r.2.1, r.2.2)
      else send_events pipes (n + 1) rest items back

/-- The kernel of the model: one system call. -/
def step : Kernel Model
  | m, .epoll_create1 _ =>
    match m.epfd with
    | some _ => some ({ ret := -1 }, m)
    | none => some ({ ret := m.next_fd }, { m with epfd := some m.next_fd, next_fd := m.next_fd + 1 })
  | m, .epoll_ctl epfd op fd ev =>
    if m.epfd ≠ some epfd then some ({ ret := -1 }, m)
    else if (lookup fd m.pipes).isNone then some ({ ret := -1 }, m)
    else if op = EPOLL_CTL_ADD then
      if (lookup fd m.items).isSome then some ({ ret := -1 }, m)
      else
        some ({ ret := 0 },
          { m with items := store fd ev m.items,
                   rdllist := if armed ev && readable m.pipes fd then enqueue fd m.rdllist
                              else m.rdllist })
    else if op = EPOLL_CTL_MOD then
      if (lookup fd m.items).isNone then some ({ ret := -1 }, m)
      else
        some ({ ret := 0 },
          { m with items := store fd ev m.items,
                   rdllist := if armed ev && readable m.pipes fd then enqueue fd m.rdllist
                              else m.rdllist })
    else if op = EPOLL_CTL_DEL then
      if (lookup fd m.items).isNone then some ({ ret := -1 }, m)
      else
        some ({ ret := 0 },
          { m with items := erase fd m.items, rdllist := m.rdllist.filter (fun g => g ≠ fd) })
    else some ({ ret := -1 }, m)
  | m, .epoll_wait epfd maxevents timeout =>
    if m.epfd ≠ some epfd then some ({ ret := -1 }, m)
    else if maxevents ≤ 0 then some ({ ret := -1 }, m)
    else
      let r := send_events m.pipes maxevents.toNat m.rdllist m.items []
      if r.1 = [] ∧ timeout < 0 then none
      else
        some ({ ret := r.1.length, epoll_events := r.1 },
          { m with items := r.2.1, rdllist := r.2.2 })
  | m, .ioctl_FIONREAD fd =>
    match lookup fd m.pipes with
    | some u => some ({ ret := 0, nread := some u }, m)
    | none => some ({ ret := -1 }, m)
  | m, .kqueue => some ({ ret := -1 }, m)
  | m, .kevent _ _ _ _ => some ({ ret := -1 }, m)

/-- Creation of a pipe by `pipe(2)`: the read end gets the next free number,
the write end the one after. -/
def Model.pipe (m : Model) : Int × Model :=
  (m.next_fd, { m with pipes := store m.next_fd 0 m.pipes, next_fd := m.next_fd + 2 })

/-- A `write(2)` of `n` bytes to the pipe whose read end is `fd`: the wakeup of
the pipe puts an armed entry on the ready list. -/
def Model.write (m : Model) (fd : Int) (n : Nat) : Model :=
  match lookup fd m.pipes with
  | none => m
  | some u =>
    if n = 0 then m
    else
      { m with pipes := store fd (u + n) m.pipes,
               rdllist := match lookup fd m.items with
                          | some it => if armed it then enqueue fd m.rdllist else m.rdllist
                          | none => m.rdllist }

/-- A `read(2)` of at most `k` bytes from the read end `fd`: it takes bytes
away and wakes no reader. -/
def Model.read (m : Model) (fd : Int) (k : Nat) : Model :=
  match lookup fd m.pipes with
  | none => m
  | some u => { m with pipes := store fd (u - min k u) m.pipes }

/-- One operation of a scenario on the context `pfd`; a wait passes a non-null
`avail`.  The result is the outcome of the poller call, if the operation is one. -/
def exec (pfd : Int) (m : Model) : Op → Outcome (Option (Int × Option Int)) × Model
  | .write fd n => (.ok none, m.write fd n)
  | .read fd k => (.ok none, m.read fd k)
  | .wait ms =>
    match run step (poller_wait pfd true ms) m with
    | (.ok r, m1) => (.ok (some r), m1)
    | (.fatal st msg, m1) => (.fatal st msg, m1)
    | (.hang, m1) => (.hang, m1)
  | .rearm fd =>
    match run step (poller_rearm_read pfd fd) m with
    | (.ok _, m1) => (.ok none, m1)
    | (.fatal st msg, m1) => (.fatal st msg, m1)
    | (.hang, m1) => (.hang, m1)

/-- State after a sequence of operations, if each of them returned. -/
def execs (pfd : Int) : Model → List Op → Option Model
  | m, [] => some m
  | m, op :: ops =>
    match exec pfd m op with
    | (.ok _, m1) => execs pfd m1 ops
    | _ => none

/-- Results of the waits of a sequence of operations, in order, up to the first
operation that does not return. -/
def observe (pfd : Int) : Model → List Op → List (Int × Option Int)
  | _, [] => []
  | m, op :: ops =>
    match exec pfd m op with
    | (.ok (some r), m1) => r :: observe pfd m1 ops
    | (.ok none, m1) => observe pfd m1 ops
    | _ => []

/-- The `setup_read` of `poller.c`: a pipe, a context, the read end registered.
Returns the context and the read end. -/
def setup_read (mode : poller_mode) : Outcome (Int × Int) × Model :=
  let p := Model.init.pipe
  match run step poller_create p.2 with
  | (.ok pfd, m1) =>
    match run step (poller_add_read pfd p.1 mode) m1 with
    | (.ok _, m2) => (.ok (pfd, p.1), m2)
    | (.fatal st msg, m2) => (.fatal st msg, m2)
    | (.hang, m2) => (.hang, m2)
  | (.fatal st msg, m1) => (.fatal st msg, m1)
  | (.hang, m1) => (.hang, m1)

end Epoll

/-! ## Environment: a model of kqueue(2) for pipes -/

namespace Kqueue

def EV_DELETE : Nat := 2

/-- State of the model: open pipes, the next free descriptor number, the kernel
queue (one per model), its read-filter registrations keyed by identifier, and
the queue of triggered registrations. -/
structure Model where
  pipes : List (Int × Nat)
  next_fd : Int
  kq : Option Int
  knotes : List (Int × kevent)
  queue : List Int
  deriving DecidableEq, Repr

/-- A process with no pipe and no kernel queue; 0, 1, 2 are taken. -/
def Model.init : Model :=
  { pipes := [], next_fd := 3, kq := none, knotes := [], queue := [] }

/-- One entry of a change list.  Only the read filter on an open pipe is
modelled; `none` is a rejected change. -/
def register (m : Model) (c : kevent) : Option Model :=
  if c.filter ≠ EVFILT_READ then none
  else if (lookup (c.ident : Int) m.pipes).isNone then none
  else if c.flags &&& EV_ADD ≠ 0 then
    some { m with knotes := store (c.ident : Int) c m.knotes,
                  queue := if readable m.pipes (c.ident : Int) then enqueue (c.ident : Int) m.queue
                           else m.queue }
  else if (lookup (c.ident : Int) m.knotes).isNone then none
  else if c.flags &&& EV_DELETE ≠ 0 then
    some { m with knotes := erase (c.ident : Int) m.knotes,
                  queue := m.queue.filter (fun g => g ≠ (c.ident : Int)) }
  else some m

/-- The entries of a change list in order, up to the first rejected one. -/
def register_all : Model → List kevent → Model × Bool
  | m, [] => (m, true)
  | m, c :: cs =>
    match register m c with
    | none => (m, false)
    | some m1 => register_all m1 cs

/-- Retrieval of triggered registrations, at most `n` of them: a registration
is evaluated again when it is visited and skipped if nothing is readable; the
event carries the number of unread bytes in `data`.  An `EV_ONESHOT`
registration is deleted when retrieved, the state of an `EV_CLEAR` one is reset,
any other one stays triggered.  Returns the events, the registrations and the
new queue (entries not visited, then the entries that stay triggered). -/
def scan (pipes : List (Int × Nat)) :
    Nat → List Int → List (Int × kevent) → List Int →
      List kevent × List (Int × kevent) × List Int
  | _, [], kns, back => ([], kns, back)
  | 0, id :: rest, kns, back => ([], kns, (id :: rest) ++ back)
  | n + 1, id :: rest, kns, back =>
    match lookup id kns with
    | none => scan pipes (n + 1) rest kns back
    | some kn =>
      if readable pipes id then
        let ev : kevent := { kn with data := ((lookup id pipes).getD 0 : Nat) }
        if kn.flags &&& EV_ONESHOT ≠ 0 then
          let r := scan pipes n rest (erase id kns) back
          (ev :: r.1, r.2.1, r.2.2)
        else if kn.flags &&& EV_CLEAR ≠ 0 then
          let r := scan pipes n rest kns back
          (ev :: r.1, r.2.1, r.2.2)
        else
          let r := scan pipes n rest kns (back ++ [id])
          (ev :: r.1, r.2.1, r.2.2)
      else scan pipes (n + 1) rest kns back

/-- Whether the kernel accepts a time limit. -/
def valid_timeout : Option timespec → Bool
  | none => true
  | some ts => decide (0 ≤ ts.tv_sec ∧ 0 ≤ ts.tv_nsec ∧ ts.tv_nsec < 1000000000)

/-- The kernel of the model: one system call. -/
def step : Kernel Model
  | m, .kqueue =>
    match m.kq with
    | some _ => some ({ ret := -1 }, m)
    | none => some ({ ret := m.next_fd }, { m with kq := some m.next_fd, next_fd := m.next_fd + 1 })
  | m, .kevent kq changelist nevents timeout =>
    if m.kq ≠ some kq then some ({ ret := -1 }, m)
    else
      let c := register_all m changelist
      if c.2 = false then some ({ ret := -1 }, c.1)
      else if nevents < 0 then some ({ ret := -1 }, c.1)
      else if nevents = 0 then some ({ ret := 0 }, c.1)
      else if valid_timeout timeout = false then some ({ ret := -1 }, c.1)
      else
        let r := scan c.1.pipes nevents.toNat c.1.queue c.1.knotes []
        if r.1 = [] ∧ timeout = none then none
        else
          some ({ ret := r.1.length, kevents := r.1 },
            { c.1 with knotes := r.2.1, queue := r.2.2 })
  | m, .epoll_create1 _ => some ({ ret := -1 }, m)
  | m, .epoll_ctl _ _ _ _ => some ({ ret := -1 }, m)
  | m, .epoll_wait _ _ _ => some ({ ret := -1 }, m)
  | m, .ioctl_FIONREAD fd =>
    match lookup fd m.pipes with
    | some u => some ({ ret := 0, nread := some u }, m)
    | none => some ({ ret := -1 }, m)

/-- Creation of a pipe by `pipe(2)`. -/
def Model.pipe (m : Model) : Int × Model :=
  (m.next_fd, { m with pipes := store m.next_fd 0 m.pipes, next_fd := m.next_fd + 2 })

/-- A `write(2)` of `n` bytes to the pipe whose read end is `fd`: the
registration of the read end is triggered. -/
def Model.write (m : Model) (fd : Int) (n : Nat) : Model :=
  match lookup fd m.pipes with
  | none => m
  | some u =>
    if n = 0 then m
    else
      { m with pipes := store fd (u + n) m.pipes,
               queue := if (lookup fd m.knotes).isSome then enqueue fd m.queue else m.queue }

/-- A `read(2)` of at most `k` bytes from the read end `fd`: a read that takes
bytes away and leaves some behind triggers the registration again. -/
def Model.read (m : Model) (fd : Int) (k : Nat) : Model :=
  match lookup fd m.pipes with
  | none => m
  | some u =>
    if min k u = 0 then m
    else
      { m with pipes := store fd (u - min k u) m.pipes,
               queue := if (lookup fd m.knotes).isSome && decide (0 < u - min k u)
                        then enqueue fd m.queue else m.queue }

/-- One operation of a scenario on the context `pfd`; a wait passes a non-null
`avail`.  The result is the outcome of the poller call, if the operation is one. -/
def exec (pfd : Int) (m : Model) : Op → Outcome (Option (Int × Option Int)) × Model
  | .write fd n => (.ok none, m.write fd n)
  | .read fd k => (.ok none, m.read fd k)
  | .wait ms =>
    match run step (poller_wait pfd true ms) m with
    | (.ok r, m1) => (.ok (some r), m1)
    | (.fatal st msg, m1) => (.fatal st msg, m1)
    | (.hang, m1) => (.hang, m1)
  | .rearm fd =>
    match run step (poller_rearm_read pfd fd) m with
    | (.ok _, m1) => (.ok none, m1)
    | (.fatal st msg, m1) => (.fatal st msg, m1)
    | (.hang, m1) => (.hang, m1)

/-- State after a sequence of operations, if each of them returned. -/
def execs (pfd : Int) : Model → List Op → Option Model
  | m, [] => some m
  | m, op :: ops =>
    match exec pfd m op with
    | (.ok _, m1) => execs pfd m1 ops
    | _ => none

/-- Results of the waits of a sequence of operations, in order, up to the first
operation that does not return. -/
def observe (pfd : Int) : Model → List Op → List (Int × Option Int)
  | _, [] => []
  | m, op :: ops =>
    match exec pfd m op with
    | (.ok (some r), m1) => r :: observe pfd m1 ops
    | (.ok none, m1) => observe pfd m1 ops
    | _ => []

/-- The `setup_read` of `poller.c`: a pipe, a context, the read end registered.
Returns the context and the read end. -/
def setup_read (mode : poller_mode) : Outcome (Int × Int) × Model :=
  let p := Model.init.pipe
  match run step poller_create p.2 with
  | (.ok pfd, m1) =>
    match run step (poller_add_read pfd p.1 mode) m1 with
    | (.ok _, m2) => (.ok (pfd, p.1), m2)
    | (.fatal st msg, m2) => (.fatal st msg, m2)
    | (.hang, m2) => (.hang, m2)
  | (.fatal st msg, m1) => (.fatal st msg, m1)
  | (.hang, m1) => (.hang, m1)

end Kqueue

/-! ## Observation of runs -/

/-- Whether some system call of a log reported failure (a negative return). -/
def failed (log : List (Syscall × Answer)) : Bool :=
  log.any fun ca => decide (ca.2.ret < 0)

/-- Whether the first system call of a log reported failure. -/
def first_failed (log : List (Syscall × Answer)) : Bool :=
  match log with
  | [] => false
  | ca :: _ => decide (ca.2.ret < 0)

/-- Run a tree on a prepared sequence of kernel answers, one per system call;
a call for which no answer is left never returns. -/
def Prog.feed {α : Type} : Prog α → List Answer → Outcome α
  | .ret a, _ => .ok a
  | .err st msg, _ => .fatal st msg
  | .call _ _, [] => .hang
  | .call _ k, a :: as => Prog.feed (k a) as

/-- The system calls made on a prepared sequence of answers, each with its answer. -/
def Prog.feed_log {α : Type} : Prog α → List Answer → List (Syscall × Answer)
  | .call c k, a :: as => (c, a) :: Prog.feed_log (k a) as
  | _, _ => []

/-- The descriptor a wait returned, if it returned. -/
def returned_fd : Outcome (Int × Option Int) → Option Int
  | .ok r => some r.1
  | _ => none

/-- The event of the kernel registration that `Epoll.poller_add_read` submits. -/
def Epoll.registered (pfd rfd : Int) (mode : poller_mode) : Option epoll_event :=
  match (Epoll.poller_add_read pfd rfd mode).first_call with
  | some (.epoll_ctl _ _ _ ev) => some ev
  | _ => none

/-- The change that `Kqueue.poller_add_read` submits. -/
def Kqueue.registered (pfd rfd : Int) (mode : poller_mode) : Option kevent :=
  match (Kqueue.poller_add_read pfd rfd mode).first_call with
  | some (.kevent _ [c] _ _) => some c
  | _ => none

/-! ## Scenario states -/

/-- A process with one pipe (read end `f`, `u` unread bytes) and the epoll
context `p` whose interest list holds `f` with event mask `E`; `q` tells
whether `f` is on the ready list.  The state `setup_read` leaves is of this
shape. -/
def Epoll.single (n p f : Int) (u E : Nat) (q : Bool) : Epoll.Model :=
  { pipes := [(f, u)], next_fd := n, epfd := some p,
    items := [(f, { events := E, data_fd := f })],
    rdllist := if q then [f] else [] }

/-- The read-filter registration of descriptor `f` with flags `F`. -/
def Kqueue.knote (f : Int) (F : Nat) : kevent :=
  { ident := toUintptr f, filter := EVFILT_READ, flags := F, fflags := 0, data := 0, udata := 0 }

/-- A process with one pipe (read end `f`, `u` unread bytes) and the kernel
queue `p` holding the registration of `f` with flags `F` (none if `F` is
`none`); `q` tells whether `f` is on the queue of triggered registrations. -/
def Kqueue.single (n p f : Int) (u : Nat) (F : Option Nat) (q : Bool) : Kqueue.Model :=
  { pipes := [(f, u)], next_fd := n, kq := some p,
    knotes := match F with
              | some F => [(f, Kqueue.knote f F)]
              | none => [],
    queue := if q then [f] else [] }

/-- Two pipes registered in one mode on one epoll context, then 8 bytes written
to the first and 4 to the second.  Returns the context and the two read ends. -/
def Epoll.setup_two (mode : poller_mode) : (Int × Int × Int) × Epoll.Model :=
  let p1 := Epoll.Model.init.pipe
  let p2 := p1.2.pipe
  let c := run Epoll.step Epoll.poller_create p2.2
  let pfd := match c.1 with
    | .ok pfd => pfd
    | _ => -1
  let m1 := (run Epoll.step (Epoll.poller_add_read pfd p1.1 mode) c.2).2
  let m2 := (run Epoll.step (Epoll.poller_add_read pfd p2.1 mode) m1).2
  ((pfd, p1.1, p2.1), (m2.write p1.1 8).write p2.1 4)

/-- Two pipes registered in one mode on one kernel queue, then 8 bytes written
to the first and 4 to the second.  Returns the context and the two read ends. -/
def Kqueue.setup_two (mode : poller_mode) : (Int × Int × Int) × Kqueue.Model :=
  let p1 := Kqueue.Model.init.pipe
  let p2 := p1.2.pipe
  let c := run Kqueue.step Kqueue.poller_create p2.2
  let pfd := match c.1 with
    | .ok pfd => pfd
    | _ => -1
  let m1 := (run Kqueue.step (Kqueue.poller_add_read pfd p1.1 mode) c.2).2
  let m2 := (run Kqueue.step (Kqueue.poller_add_read pfd p2.1 mode) m1).2
  ((pfd, p1.1, p2.1), (m2.write p1.1 8).write p2.1 4)

/-- A process with one pipe (read end `f`, `u` unread bytes) and the epoll
context `p` with an empty interest list. -/
def Epoll.fresh (n p f : Int) (u : Nat) : Epoll.Model :=
  { pipes := [(f, u)], next_fd := n, epfd := some p, items := [], rdllist := [] }

/-- The state after `poller_add_read(p, f, mode)` on an empty pipe. -/
def Epoll.start (n p f : Int) (mode : poller_mode) : Epoll.Model :=
  (run Epoll.step (Epoll.poller_add_read p f mode) (Epoll.fresh n p f 0)).2

/-- The state after `poller_add_read(p, f, mode)` on an empty pipe. -/
def Kqueue.start (n p f : Int) (mode : poller_mode) : Kqueue.Model :=
  (run Kqueue.step (Kqueue.poller_add_read p f mode) (Kqueue.single n p f 0 none false)).2

def test_edge_read_none (rfd : Int) : List Op :=
  [.write rfd 8, .wait 10, .wait 10, .write rfd 8, .wait 10]

def test_edge_read_some (rfd : Int) : List Op :=
  [.write rfd 8, .wait 10, .read rfd 4, .wait 10, .write rfd 8, .wait 10, .read rfd 12]

def test_edge_read_all (rfd : Int) : List Op :=
  [.write rfd 8, .wait 10, .read rfd 8, .wait 10, .write rfd 8, .wait 10, .read rfd 8]

def test_edge_read_more (rfd : Int) : List Op :=
  [.write rfd 8, .wait 10, .write rfd 8, .read rfd 8, .wait 10, .read rfd 8]

def test_level_read_none (rfd : Int) : List Op :=
  [.write rfd 8, .wait 10, .wait 10, .write rfd 8, .wait 10]

def test_level_read_some (rfd : Int) : List Op :=
  [.write rfd 8, .wait 10, .read rfd 4, .wait 10, .write rfd 8, .wait 10, .read rfd 12]

def test_level_read_all (rfd : Int) : List Op :=
  [.write rfd 8, .wait 10, .read rfd 8, .wait 10, .write rfd 8, .wait 10, .read rfd 8]

def test_level_read_more (rfd : Int) : List Op :=
  [.write rfd 8, .wait 10, .write rfd 8, .read rfd 8, .wait 10, .read rfd 8]

def test_once_read_none (rfd : Int) : List Op :=
  [.write rfd 8, .wait 10, .wait 10, .write rfd 8, .wait 10, .rearm rfd, .wait 10]

def test_once_read_some (rfd : Int) : List Op :=
  [.write rfd 8, .wait 10, .read rfd 4, .wait 10, .rearm rfd, .wait 10, .rearm rfd, .wait 10,
   .rearm rfd, .write rfd 8, .wait 10, .read rfd 12]

def test_once_read_all (rfd : Int) : List Op :=
  [.write rfd 8, .wait 10, .read rfd 8, .wait 10, .write rfd 8, .wait 10, .rearm rfd, .wait 10,
   .read rfd 8]

def test_once_read_more (rfd : Int) : List Op :=
  [.write rfd 8, .wait 10, .write rfd 8, .read rfd 8, .wait 10, .rearm rfd, .wait 10, .read rfd 8]

/-! # Theorems -/

/-! ## C integers -/

theorem wrapInt32_of_isInt32 (x : Int) (h : IsInt32 x) : wrapInt32 x = x := by
  unfold IsInt32 at h
  unfold wrapInt32
  omega

theorem toUintptr_cast (x : Int) : ((toUintptr x : Nat) : Int) = x % 18446744073709551616 := by
  unfold toUintptr
  exact Int.toNat_of_nonneg (Int.emod_nonneg _ (by decide))

theorem wrapInt32_toUintptr (x : Int) (h : IsInt32 x) :
    wrapInt32 ((toUintptr x : Nat) : Int) = x := by
  rw [toUintptr_cast]
  unfold IsInt32 at h
  unfold wrapInt32
  omega

theorem Epoll.ep_feed_poller_wait (pfd ms : Int) (avail : Bool) (a b : Answer) (as : List Answer) :
    (Epoll.poller_wait pfd avail ms).feed (a :: b :: as) =
      if a.ret < 0 then .fatal 1 "epoll wait"
      else if a.ret = 0 then .ok (-1, none)
      else .ok ((a.epoll_events.headD { events := 0, data_fd := 0 }).data_fd,
        if avail then some (b.nread.getD 0) else none) := by
  unfold Epoll.poller_wait
  simp only [Prog.feed]
  by_cases h1 : a.ret < 0
  · simp [h1, Prog.feed]
  · by_cases h2 : a.ret = 0
    · simp [h2, Prog.feed]
    · cases avail <;> simp [h1, h2, Prog.feed]

theorem Kqueue.kq_feed_poller_wait (pfd ms : Int) (avail : Bool) (a : Answer) (as : List Answer) :
    (Kqueue.poller_wait pfd avail ms).feed (a :: as) =
      if a.ret < 0 then .fatal 1 "kevent wait"
      else if a.ret = 0 then .ok (-1, none)
      else .ok (wrapInt32 ((a.kevents.headD
            { ident := 0, filter := 0, flags := 0, fflags := 0, data := 0, udata := 0 }).ident : Int),
          if avail then some (a.kevents.headD
            { ident := 0, filter := 0, flags := 0, fflags := 0, data := 0, udata := 0 }).data
          else none) := by
  unfold Kqueue.poller_wait
  simp only [Prog.feed]
  by_cases h1 : a.ret < 0
  · simp [h1, Prog.feed]
  · by_cases h2 : a.ret = 0
    · simp [h2, Prog.feed]
    · cases avail <;> simp [h1, h2, Prog.feed]

/-! ## C1: what a wait returns -/

/-- C1: for every context, timeout and non-failing answer of the kernel wait
call, on both backends: with zero events `poller_wait` returns the sentinel
`(-1, nothing stored)`; with an event it returns the descriptor the event
carries (on kqueue, the registered `int` behind the identifier); and when that
descriptor is a valid, non-negative one, the result is `-1` exactly when the
kernel reported zero events. -/
theorem C1_wait_returns_sentinel_iff_no_event (pfd ms rfd : Int) (avail : Bool)
    (a b c : Answer) (ev : epoll_event) (kev : Polldiff.kevent)
    (ha : 0 ≤ a.ret) (hc : 0 ≤ c.ret)
    (hev : a.ret ≠ 0 → a.epoll_events.head? = some ev)
    (hkev : c.ret ≠ 0 → c.kevents.head? = some kev)
    (hfd : ev.data_fd = rfd) (hid : kev.ident = toUintptr rfd)
    (h0 : 0 ≤ rfd) (h32 : IsInt32 rfd) :
    (a.ret = 0 → (Epoll.poller_wait pfd avail ms).feed [a, b] = .ok (-1, none)) ∧
    (a.ret ≠ 0 → returned_fd ((Epoll.poller_wait pfd avail ms).feed [a, b]) = some rfd) ∧
    (returned_fd ((Epoll.poller_wait pfd avail ms).feed [a, b]) = some (-1) ↔ a.ret = 0) ∧
    (c.ret = 0 → (Kqueue.poller_wait pfd avail ms).feed [c] = .ok (-1, none)) ∧
    (c.ret ≠ 0 → returned_fd ((Kqueue.poller_wait pfd avail ms).feed [c]) = some rfd) ∧
    (returned_fd ((Kqueue.poller_wait pfd avail ms).feed [c]) = some (-1) ↔ c.ret = 0) := by
  have hna : ¬ a.ret < 0 := by omega
  have hnc : ¬ c.ret < 0 := by omega
  have hw : wrapInt32 ((toUintptr rfd : Nat) : Int) = rfd := wrapInt32_toUintptr rfd h32
  rw [Epoll.ep_feed_poller_wait, Kqueue.kq_feed_poller_wait]
  refine ⟨?_, ?_, ?_, ?_, ?_, ?_⟩
  · intro h; simp [h]
  · intro h
    have := hev h
    cases hl : a.epoll_events with
    | nil => simp [hl] at this
    | cons e es =>
      simp [hl] at this
      simp [hna, h, returned_fd, List.headD, this, hfd]
  · by_cases h : a.ret = 0
    · simp [h, returned_fd]
    · have := hev h
      cases hl : a.epoll_events with
      | nil => simp [hl] at this
      | cons e es =>
        simp [hl] at this
        simp [hna, h, returned_fd, List.headD, this, hfd]
        omega
  · intro h; simp [h]
  · intro h
    have := hkev h
    cases hl : c.kevents with
    | nil => simp [hl] at this
    | cons e es =>
      simp [hl] at this
      simp [hnc, h, returned_fd, List.headD, this, hid, hw]
  · by_cases h : c.ret = 0
    · simp [h, returned_fd]
    · have := hkev h
      cases hl : c.kevents with
      | nil => simp [hl] at this
      | cons e es =>
        simp [hl] at this
        simp [hnc, h, returned_fd, List.headD, this, hid, hw]
        omega

/-- Witness of C1: one event for descriptor 3 on each backend. -/
theorem C1_wait_returns_sentinel_iff_no_event_witness :
    returned_fd ((Epoll.poller_wait 5 true 10).feed
        [{ ret := 1, epoll_events := [{ events := 1, data_fd := 3 }] }, { ret := 0, nread := some 8 }])
      = some 3 ∧
    returned_fd ((Kqueue.poller_wait 5 true 10).feed
        [{ ret := 1, kevents := [{ ident := 3, filter := -1, flags := 33, fflags := 0, data := 8,
                                   udata := 0 }] }])
      = some 3 := by
  have h := C1_wait_returns_sentinel_iff_no_event 5 10 3 true
    { ret := 1, epoll_events := [{ events := 1, data_fd := 3 }] } { ret := 0, nread := some 8 }
    { ret := 1, kevents := [{ ident := 3, filter := -1, flags := 33, fflags := 0, data := 8,
                              udata := 0 }] }
    { events := 1, data_fd := 3 }
    { ident := 3, filter := -1, flags := 33, fflags := 0, data := 8, udata := 0 }
    (by decide) (by decide) (fun _ => rfl) (fun _ => rfl) rfl (by decide) (by decide) (by decide)
  exact ⟨h.2.1 (by decide), h.2.2.2.2.1 (by decide)⟩

/-! ## C5: re-arming -/

/-- C5, refuted as stated: on the epoll backend the request of
`poller_rearm_read(5, 3)` is not the request of
`poller_add_read(5, 3, POLLER_ONESHOT)`. -/
theorem C5_rearm_request_differs_on_epoll :
    (Epoll.poller_rearm_read 5 3).first_call
      ≠ (Epoll.poller_add_read 5 3 .POLLER_ONESHOT).first_call := by
  decide

/-- C5, amended: on the kqueue backend `poller_rearm_read(pfd, rfd)` is the call
`poller_add_read(pfd, rfd, POLLER_ONESHOT)` itself; on the epoll backend it is
separate code that submits the same descriptor and the same event
(`EPOLLIN | EPOLLONESHOT`, `data.fd = rfd`) as that call, with the operation
`EPOLL_CTL_MOD` where the registration uses `EPOLL_CTL_ADD`; both treat the
answer alike, up to the text of the diagnostic. -/
theorem C5_rearm_is_oneshot_registration_up_to_op (pfd rfd : Int) :
    Kqueue.poller_rearm_read pfd rfd = Kqueue.poller_add_read pfd rfd .POLLER_ONESHOT ∧
    (∃ ev : epoll_event,
      ev = { events := EPOLLIN ||| EPOLLONESHOT, data_fd := rfd } ∧
      (Epoll.poller_rearm_read pfd rfd).first_call = some (.epoll_ctl pfd EPOLL_CTL_MOD rfd ev) ∧
      (Epoll.poller_add_read pfd rfd .POLLER_ONESHOT).first_call
        = some (.epoll_ctl pfd EPOLL_CTL_ADD rfd ev)) ∧
    EPOLL_CTL_MOD ≠ EPOLL_CTL_ADD ∧
    (∀ a : Answer, 0 ≤ a.ret →
      (Epoll.poller_rearm_read pfd rfd).feed [a] = .ok () ∧
      (Epoll.poller_add_read pfd rfd .POLLER_ONESHOT).feed [a] = .ok ()) ∧
    (∀ a : Answer, a.ret < 0 →
      (Epoll.poller_rearm_read pfd rfd).feed [a] = .fatal 1 "epoll mod" ∧
      (Epoll.poller_add_read pfd rfd .POLLER_ONESHOT).feed [a] = .fatal 1 "epoll add") := by
  refine ⟨rfl, ⟨_, rfl, rfl, rfl⟩, by decide, ?_, ?_⟩
  · intro a ha
    have : ¬ a.ret < 0 := by omega
    simp [Epoll.poller_rearm_read, Epoll.poller_add_read, Prog.feed, this]
  · intro a ha
    simp [Epoll.poller_rearm_read, Epoll.poller_add_read, Prog.feed, ha]

/-- Witness of C5 (amended): the two epoll requests for context 5, descriptor 3. -/
theorem C5_rearm_is_oneshot_registration_up_to_op_witness :
    (Epoll.poller_rearm_read 5 3).feed [{ ret := 0 }] = .ok () ∧
    (Epoll.poller_add_read 5 3 .POLLER_ONESHOT).feed [{ ret := 0 }] = .ok () :=
  (C5_rearm_is_oneshot_registration_up_to_op 5 3).2.2.2.1 { ret := 0 } (by decide)

/-! ## C7: the timeout handed to the kernel -/

/-! ### The wait call in the kernel models -/

theorem Epoll.ep_step_wait (m : Epoll.Model) (pfd ms : Int) :
    Epoll.step m (.epoll_wait pfd 1 ms) =
      if m.epfd ≠ some pfd then some ({ ret := -1 }, m)
      else if (Epoll.send_events m.pipes 1 m.rdllist m.items []).1 = [] ∧ ms < 0 then none
      else some ({ ret := (Epoll.send_events m.pipes 1 m.rdllist m.items []).1.length,
                   epoll_events := (Epoll.send_events m.pipes 1 m.rdllist m.items []).1 },
                 { m with items := (Epoll.send_events m.pipes 1 m.rdllist m.items []).2.1,
                          rdllist := (Epoll.send_events m.pipes 1 m.rdllist m.items []).2.2 }) := by
  simp only [Epoll.step, show ¬ ((1 : Int) ≤ 0) by decide, if_false, show (1 : Int).toNat = 1 from rfl]

theorem Kqueue.kq_step_wait (m : Kqueue.Model) (pfd : Int) (tmo : Option timespec) :
    Kqueue.step m (.kevent pfd [] 1 tmo) =
      if m.kq ≠ some pfd then some ({ ret := -1 }, m)
      else if Kqueue.valid_timeout tmo = false then some ({ ret := -1 }, m)
      else if (Kqueue.scan m.pipes 1 m.queue m.knotes []).1 = [] ∧ tmo = none then none
      else some ({ ret := (Kqueue.scan m.pipes 1 m.queue m.knotes []).1.length,
                   kevents := (Kqueue.scan m.pipes 1 m.queue m.knotes []).1 },
                 { m with knotes := (Kqueue.scan m.pipes 1 m.queue m.knotes []).2.1,
                          queue := (Kqueue.scan m.pipes 1 m.queue m.knotes []).2.2 }) := by
  simp only [Kqueue.step, Kqueue.register_all, show ¬ ((1 : Int) < 0) by decide,
    show ¬ ((1 : Int) = 0) by decide, if_false, show (1 : Int).toNat = 1 from rfl]
  simp

theorem Kqueue.wait_timeout_nsec (ms : Int) (h : 0 ≤ ms) :
    wrapInt32 (Int.tmod ms 1000 * 1000000) = ms % 1000 * 1000000 := by
  rw [Int.tmod_eq_emod h (by decide)]
  apply wrapInt32_of_isInt32
  unfold IsInt32
  omega

theorem Kqueue.valid_wait_timeout (ms : Int) :
    Kqueue.valid_timeout (Kqueue.wait_timeout ms) = true := by
  unfold Kqueue.wait_timeout
  by_cases h : ms ≥ 0
  · have h0 : 0 ≤ ms := h
    simp only [h, if_true, Kqueue.valid_timeout, decide_eq_true_eq]
    rw [Kqueue.wait_timeout_nsec ms h0, Int.tdiv_eq_ediv h0 (by decide)]
    omega
  · simp [h, Kqueue.valid_timeout]

/-- C7: for every C `int` `ms`: the epoll backend passes `ms` through to
`epoll_wait`; the kqueue backend passes a null time limit when `ms < 0`, and
when `ms >= 0` the `timespec` with `tv_sec = ms / 1000` and
`tv_nsec = (ms % 1000) * 1000000`, where `0 <= tv_nsec < 1000000000`,
`tv_sec * 1000 + tv_nsec / 1000000 = ms`, and the quotient, the remainder and
the product all fit a 32-bit signed `int`.  In the kernel models a wait with
`ms < 0` never reports zero events and a wait with `ms >= 0` always returns. -/
theorem C7_timeout_handed_to_kernel (pfd ms : Int) (avail : Bool) (hms : IsInt32 ms) :
    (Epoll.poller_wait pfd avail ms).first_call = some (.epoll_wait pfd 1 ms) ∧
    (ms < 0 → (Kqueue.poller_wait pfd avail ms).first_call = some (.kevent pfd [] 1 none)) ∧
    (0 ≤ ms → ∃ ts : timespec,
      (Kqueue.poller_wait pfd avail ms).first_call = some (.kevent pfd [] 1 (some ts)) ∧
      ts.tv_sec = ms / 1000 ∧ ts.tv_nsec = (ms % 1000) * 1000000 ∧
      0 ≤ ts.tv_nsec ∧ ts.tv_nsec < 1000000000 ∧
      ts.tv_sec * 1000 + ts.tv_nsec / 1000000 = ms ∧
      IsInt32 (Int.tdiv ms 1000) ∧ IsInt32 (Int.tmod ms 1000) ∧
      IsInt32 (Int.tmod ms 1000 * 1000000)) ∧
    (ms < 0 → ∀ (m m1 : Epoll.Model) (a : Answer),
      Epoll.step m (.epoll_wait pfd 1 ms) = some (a, m1) → a.ret ≠ 0) ∧
    (ms < 0 → ∀ (m m1 : Kqueue.Model) (a : Answer),
      Kqueue.step m (.kevent pfd [] 1 (Kqueue.wait_timeout ms)) = some (a, m1) → a.ret ≠ 0) ∧
    (0 ≤ ms → ∀ m : Epoll.Model, (Epoll.step m (.epoll_wait pfd 1 ms)).isSome = true) ∧
    (0 ≤ ms → ∀ m : Kqueue.Model,
      (Kqueue.step m (.kevent pfd [] 1 (Kqueue.wait_timeout ms))).isSome = true) := by
  unfold IsInt32 at hms
  refine ⟨rfl, ?_, ?_, ?_, ?_, ?_, ?_⟩
  · intro h
    have : ¬ ms ≥ 0 := by omega
    simp [Kqueue.poller_wait, Kqueue.wait_timeout, Prog.first_call, this]
  · intro h
    have hge : ms ≥ 0 := h
    refine ⟨{ tv_sec := Int.tdiv ms 1000, tv_nsec := wrapInt32 (Int.tmod ms 1000 * 1000000) },
      ?_, ?_⟩
    · simp [Kqueue.poller_wait, Kqueue.wait_timeout, Prog.first_call, hge]
    · simp only
      rw [Kqueue.wait_timeout_nsec ms h, Int.tdiv_eq_ediv h (by decide),
        Int.tmod_eq_emod h (by decide)]
      unfold IsInt32
      omega
  · intro h m m1 a hs
    rw [Epoll.ep_step_wait] at hs
    by_cases h1 : m.epfd ≠ some pfd
    · rw [if_pos h1] at hs
      simp only [Option.some.injEq, Prod.mk.injEq] at hs
      rw [← hs.1]; decide
    · rw [if_neg h1] at hs
      by_cases h2 : (Epoll.send_events m.pipes 1 m.rdllist m.items []).1 = []
      · rw [if_pos ⟨h2, h⟩] at hs
        exact absurd hs (by simp)
      · rw [if_neg (fun hc => h2 hc.1)] at hs
        simp only [Option.some.injEq, Prod.mk.injEq] at hs
        rw [← hs.1]
        simp only
        intro h3
        exact h2 (List.length_eq_zero.mp (by exact_mod_cast h3))
  · intro h m m1 a hs
    have hto : Kqueue.wait_timeout ms = none := by
      have : ¬ ms ≥ 0 := by omega
      simp [Kqueue.wait_timeout, this]
    rw [hto, Kqueue.kq_step_wait] at hs
    by_cases h1 : m.kq ≠ some pfd
    · rw [if_pos h1] at hs
      simp only [Option.some.injEq, Prod.mk.injEq] at hs
      rw [← hs.1]; decide
    · rw [if_neg h1, if_neg (by simp [Kqueue.valid_timeout])] at hs
      by_cases h2 : (Kqueue.scan m.pipes 1 m.queue m.knotes []).1 = []
      · rw [if_pos ⟨h2, rfl⟩] at hs
        exact absurd hs (by simp)
      · rw [if_neg (fun hc => h2 hc.1)] at hs
        simp only [Option.some.injEq, Prod.mk.injEq] at hs
        rw [← hs.1]
        simp only
        intro h3
        exact h2 (List.length_eq_zero.mp (by exact_mod_cast h3))
  · intro h m
    have : ¬ ms < 0 := by omega
    rw [Epoll.ep_step_wait]
    by_cases h1 : m.epfd ≠ some pfd
    · simp [h1]
    · simp [h1, this]
  · intro h m
    have hv := Kqueue.valid_wait_timeout ms
    have hto : Kqueue.wait_timeout ms ≠ none := by
      have : ms ≥ 0 := h
      simp [Kqueue.wait_timeout, this]
    rw [Kqueue.kq_step_wait]
    by_cases h1 : m.kq ≠ some pfd
    · simp [h1]
    · simp [h1, hv, hto]

/-- Witness of C7: a wait of 1500 ms gets 1 s and 500000000 ns. -/
theorem C7_timeout_handed_to_kernel_witness :
    (Kqueue.poller_wait 5 true 1500).first_call
      = some (.kevent 5 [] 1 (some { tv_sec := 1, tv_nsec := 500000000 })) := by
  obtain ⟨ts, h1, h2, h3, _⟩ := (C7_timeout_handed_to_kernel 5 1500 true (by decide)).2.2.1 (by decide)
  rw [h1]
  cases ts
  simp only at h2 h3
  subst h2 h3
  rfl

/-! ## C8: which kernel failures are fatal -/

/-- C8, refuted as stated: on the epoll backend a wait whose `epoll_wait`
reports one event and whose follow-up `FIONREAD` query fails is not fatal: it
returns the descriptor and stores 0. -/
theorem C8_failed_fionread_is_not_fatal :
    failed ((Epoll.poller_wait 5 true 10).feed_log
      [{ ret := 1, epoll_events := [{ events := 1, data_fd := 7 }] }, { ret := -1 }]) = true ∧
    (Epoll.poller_wait 5 true 10).feed
      [{ ret := 1, epoll_events := [{ events := 1, data_fd := 7 }] }, { ret := -1 }]
      = .ok (7, some 0) := by
  decide

/-- C8, amended: on both backends `poller_create`, `poller_add_read` and
`poller_rearm_read`, and `poller_wait` on kqueue, take the fatal exit exactly
when a kernel call they make reports failure; `poller_wait` on epoll takes it
exactly when `epoll_wait` reports failure.  A wait that reports zero events is
never fatal. -/
theorem C8_fatal_iff_kernel_call_failed (pfd rfd ms : Int) (mode : poller_mode) (avail : Bool)
    (as : List Answer) :
    (Epoll.poller_create.feed as).isFatal = failed (Epoll.poller_create.feed_log as) ∧
    ((Epoll.poller_add_read pfd rfd mode).feed as).isFatal
      = failed ((Epoll.poller_add_read pfd rfd mode).feed_log as) ∧
    ((Epoll.poller_rearm_read pfd rfd).feed as).isFatal
      = failed ((Epoll.poller_rearm_read pfd rfd).feed_log as) ∧
    ((Epoll.poller_wait pfd avail ms).feed as).isFatal
      = first_failed ((Epoll.poller_wait pfd avail ms).feed_log as) ∧
    (Kqueue.poller_create.feed as).isFatal = failed (Kqueue.poller_create.feed_log as) ∧
    ((Kqueue.poller_add_read pfd rfd mode).feed as).isFatal
      = failed ((Kqueue.poller_add_read pfd rfd mode).feed_log as) ∧
    ((Kqueue.poller_rearm_read pfd rfd).feed as).isFatal
      = failed ((Kqueue.poller_rearm_read pfd rfd).feed_log as) ∧
    ((Kqueue.poller_wait pfd avail ms).feed as).isFatal
      = failed ((Kqueue.poller_wait pfd avail ms).feed_log as) ∧
    (∀ a : Answer, a.ret = 0 →
      (Epoll.poller_wait pfd avail ms).feed (a :: as) = .ok (-1, none) ∧
      (Kqueue.poller_wait pfd avail ms).feed (a :: as) = .ok (-1, none)) := by
  refine ⟨?_, ?_, ?_, ?_, ?_, ?_, ?_, ?_, ?_⟩
  · cases as with
    | nil => rfl
    | cons a as =>
      by_cases h : a.ret < 0 <;>
        simp [Epoll.poller_create, Prog.feed, Prog.feed_log, failed, Outcome.isFatal, h]
  · cases as with
    | nil => rfl
    | cons a as =>
      by_cases h : a.ret < 0 <;>
        simp [Epoll.poller_add_read, Prog.feed, Prog.feed_log, failed, Outcome.isFatal, h]
  · cases as with
    | nil => rfl
    | cons a as =>
      by_cases h : a.ret < 0 <;>
        simp [Epoll.poller_rearm_read, Prog.feed, Prog.feed_log, failed, Outcome.isFatal, h]
  · cases as with
    | nil => rfl
    | cons a as =>
      by_cases h : a.ret < 0
      · simp [Epoll.poller_wait, Prog.feed, Prog.feed_log, first_failed, Outcome.isFatal, h]
      · by_cases h2 : a.ret = 0
        · simp [Epoll.poller_wait, Prog.feed, Prog.feed_log, first_failed, Outcome.isFatal, h2]
        · cases avail with
          | false =>
            simp [Epoll.poller_wait, Prog.feed, Prog.feed_log, first_failed, Outcome.isFatal, h, h2]
          | true =>
            cases as with
            | nil =>
              simp [Epoll.poller_wait, Prog.feed, Prog.feed_log, first_failed, Outcome.isFatal,
                h, h2]
            | cons b bs =>
              simp [Epoll.poller_wait, Prog.feed, Prog.feed_log, first_failed, Outcome.isFatal,
                h, h2]
  · cases as with
    | nil => rfl
    | cons a as =>
      by_cases h : a.ret < 0 <;>
        simp [Kqueue.poller_create, Prog.feed, Prog.feed_log, failed, Outcome.isFatal, h]
  · cases as with
    | nil => rfl
    | cons a as =>
      by_cases h : a.ret < 0 <;>
        simp [Kqueue.poller_add_read, Prog.feed, Prog.feed_log, failed, Outcome.isFatal, h]
  · cases as with
    | nil => rfl
    | cons a as =>
      by_cases h : a.ret < 0 <;>
        simp [Kqueue.poller_rearm_read, Kqueue.poller_add_read, Prog.feed, Prog.feed_log, failed,
          Outcome.isFatal, h]
  · cases as with
    | nil => rfl
    | cons a as =>
      by_cases h : a.ret < 0
      · simp [Kqueue.poller_wait, Prog.feed, Prog.feed_log, failed, Outcome.isFatal, h]
      · by_cases h2 : a.ret = 0
        · simp [Kqueue.poller_wait, Prog.feed, Prog.feed_log, failed, Outcome.isFatal, h2]
        · cases avail <;>
            simp [Kqueue.poller_wait, Prog.feed, Prog.feed_log, failed, Outcome.isFatal, h, h2]
  · intro a ha
    constructor
    · cases as with
      | nil => simp [Epoll.poller_wait, Prog.feed, ha]
      | cons b bs => simp [Epoll.poller_wait, Prog.feed, ha]
    · simp [Kqueue.poller_wait, Prog.feed, ha]

/-- Witness of C8 (amended): a wait that finds nothing is not fatal. -/
theorem C8_fatal_iff_kernel_call_failed_witness :
    (Epoll.poller_wait 5 true 10).feed [{ ret := 0 }] = .ok (-1, none) ∧
    (Kqueue.poller_wait 5 true 10).feed [{ ret := 0 }] = .ok (-1, none) :=
  (C8_fatal_iff_kernel_call_failed 5 3 10 .POLLER_EDGE true []).2.2.2.2.2.2.2.2 { ret := 0 } rfl

/-! ## C10: the identity of a registration -/

/-- C10: for every C `int` `rfd`: widening to `uintptr_t` and truncating back
to `int` gives `rfd`; on both backends, when the kernel hands back the identity
that `poller_add_read` registered, `poller_wait` returns `rfd`; so distinct
descriptors are reported as distinct values and a non-negative one is never
reported as `-1`. -/
theorem C10_registered_identity_round_trip (pfd rfd ms : Int) (mode : poller_mode)
    (avail : Bool) (h : IsInt32 rfd) :
    wrapInt32 ((toUintptr rfd : Nat) : Int) = rfd ∧
    (∃ c, Kqueue.registered pfd rfd mode = some c ∧
      ∀ (a : Answer) (kev : Polldiff.kevent), 0 < a.ret → a.kevents.head? = some kev →
        kev.ident = c.ident →
        returned_fd ((Kqueue.poller_wait pfd avail ms).feed [a]) = some rfd) ∧
    (∃ e, Epoll.registered pfd rfd mode = some e ∧
      ∀ (a b : Answer) (ev : epoll_event), 0 < a.ret → a.epoll_events.head? = some ev →
        ev.data_fd = e.data_fd →
        returned_fd ((Epoll.poller_wait pfd avail ms).feed [a, b]) = some rfd) ∧
    (∀ rfd2 : Int, IsInt32 rfd2 →
      wrapInt32 ((toUintptr rfd : Nat) : Int) = wrapInt32 ((toUintptr rfd2 : Nat) : Int) →
      rfd = rfd2) ∧
    (0 ≤ rfd → wrapInt32 ((toUintptr rfd : Nat) : Int) ≠ -1) := by
  have hw := wrapInt32_toUintptr rfd h
  refine ⟨hw, ⟨_, rfl, ?_⟩, ⟨_, rfl, ?_⟩, ?_, ?_⟩
  · intro a kev ha hk hid
    rw [Kqueue.kq_feed_poller_wait]
    have h1 : ¬ a.ret < 0 := by omega
    have h2 : ¬ a.ret = 0 := by omega
    cases hl : a.kevents with
    | nil => simp [hl] at hk
    | cons e es =>
      simp [hl] at hk
      simp only at hid
      simp [h1, h2, returned_fd, List.headD, hk, hid, hw]
  · intro a b ev ha hk hid
    rw [Epoll.ep_feed_poller_wait]
    have h1 : ¬ a.ret < 0 := by omega
    have h2 : ¬ a.ret = 0 := by omega
    cases hl : a.epoll_events with
    | nil => simp [hl] at hk
    | cons e es =>
      simp [hl] at hk
      simp only at hid
      simp [h1, h2, returned_fd, List.headD, hk, hid]
  · intro rfd2 h2 heq
    rw [hw, wrapInt32_toUintptr rfd2 h2] at heq
    exact heq
  · intro h0
    rw [hw]
    omega

/-- Witness of C10: the descriptor `-2147483648` survives the round trip. -/
theorem C10_registered_identity_round_trip_witness :
    wrapInt32 ((toUintptr (-2147483648) : Nat) : Int) = -2147483648 :=
  (C10_registered_identity_round_trip 5 (-2147483648) 10 .POLLER_EDGE true (by decide)).1

/-! ## C6: one event per wait -/

theorem Epoll.send_events_length (pipes : List (Int × Nat)) (n : Nat) (rdl : List Int)
    (items : List (Int × epoll_event)) (back : List Int) :
    (Epoll.send_events pipes n rdl items back).1.length ≤ n := by
  induction rdl generalizing n items back with
  | nil => simp [Epoll.send_events]
  | cons fd rest ih =>
    cases n with
    | zero => simp [Epoll.send_events]
    | succ n =>
      simp only [Epoll.send_events]
      split
      · exact ih _ _ _
      · split
        · split
          · simp only [List.length_cons]
            exact Nat.succ_le_succ (ih _ _ _)
          · split
            · simp only [List.length_cons]
              exact Nat.succ_le_succ (ih _ _ _)
            · simp only [List.length_cons]
              exact Nat.succ_le_succ (ih _ _ _)
        · exact ih _ _ _

theorem Kqueue.scan_length (pipes : List (Int × Nat)) (n : Nat) (q : List Int)
    (kns : List (Int × kevent)) (back : List Int) :
    (Kqueue.scan pipes n q kns back).1.length ≤ n := by
  induction q generalizing n kns back with
  | nil => simp [Kqueue.scan]
  | cons fd rest ih =>
    cases n with
    | zero => simp [Kqueue.scan]
    | succ n =>
      simp only [Kqueue.scan]
      split
      · exact ih _ _ _
      · split
        · split
          · simp only [List.length_cons]
            exact Nat.succ_le_succ (ih _ _ _)
          · split
            · simp only [List.length_cons]
              exact Nat.succ_le_succ (ih _ _ _)
            · simp only [List.length_cons]
              exact Nat.succ_le_succ (ih _ _ _)
        · exact ih _ _ _

theorem Epoll.send_events_zero (pipes : List (Int × Nat)) (rdl : List Int)
    (items : List (Int × epoll_event)) (back : List Int) :
    Epoll.send_events pipes 0 rdl items back = ([], items, rdl ++ back) := by
  cases rdl <;> simp [Epoll.send_events]

theorem Kqueue.scan_zero (pipes : List (Int × Nat)) (q : List Int)
    (kns : List (Int × kevent)) (back : List Int) :
    Kqueue.scan pipes 0 q kns back = ([], kns, q ++ back) := by
  cases q <;> simp [Kqueue.scan]

/-- With room for one event, every ready entry other than the one transferred
is still on the ready list afterwards. -/
theorem Epoll.send_events_one_keeps (pipes : List (Int × Nat)) (rdl : List Int)
    (items : List (Int × epoll_event)) (back : List Int) (g : Int) (it : epoll_event)
    (hg : g ∈ rdl) (hit : lookup g items = some it)
    (hready : (Epoll.armed it && readable pipes g) = true) :
    g ∈ (Epoll.send_events pipes 1 rdl items back).2.2 ∨
      (Epoll.send_events pipes 1 rdl items back).1 = [{ events := EPOLLIN, data_fd := it.data_fd }] := by
  induction rdl generalizing back with
  | nil => simp at hg
  | cons fd rest ih =>
    simp only [Epoll.send_events]
    by_cases hfd : g = fd
    · subst hfd
      right
      simp only [hit, hready, if_true, Epoll.send_events_zero]
      split <;> [rfl; (split <;> rfl)]
    · have hg2 : g ∈ rest := by
        cases hg with
        | head => exact absurd rfl hfd
        | tail _ h => exact h
      cases hl : lookup fd items with
      | none => exact ih _ hg2
      | some it2 =>
        simp only
        by_cases hr : (Epoll.armed it2 && readable pipes fd) = true
        · left
          simp only [hr, if_true, Epoll.send_events_zero]
          split
          · exact List.mem_append_left _ hg2
          · split <;> exact List.mem_append_left _ hg2
        · simp only [hr]
          exact ih _ hg2

/-- With room for one event, every triggered and readable registration other
than the one retrieved is still queued afterwards. -/
theorem Kqueue.scan_one_keeps (pipes : List (Int × Nat)) (q : List Int)
    (kns : List (Int × kevent)) (back : List Int) (g : Int) (kn : kevent)
    (hg : g ∈ q) (hkn : lookup g kns = some kn) (hready : readable pipes g = true) :
    g ∈ (Kqueue.scan pipes 1 q kns back).2.2 ∨
      (Kqueue.scan pipes 1 q kns back).1 = [{ kn with data := ((lookup g pipes).getD 0 : Nat) }] := by
  induction q generalizing back with
  | nil => simp at hg
  | cons fd rest ih =>
    simp only [Kqueue.scan]
    by_cases hfd : g = fd
    · subst hfd
      right
      simp only [hkn, hready, if_true, Kqueue.scan_zero]
      split <;> [rfl; (split <;> rfl)]
    · have hg2 : g ∈ rest := by
        cases hg with
        | head => exact absurd rfl hfd
        | tail _ h => exact h
      cases hl : lookup fd kns with
      | none => exact ih _ hg2
      | some kn2 =>
        simp only
        by_cases hr : readable pipes fd = true
        · left
          simp only [hr, if_true, Kqueue.scan_zero]
          split
          · exact List.mem_append_left _ hg2
          · split <;> exact List.mem_append_left _ hg2
        · simp only [hr]
          exact ih _ hg2

/-- C6: on both backends `poller_wait` asks the kernel for one event
(`maxevents = 1`, `nevents = 1`).  In the kernel models the answer to that call
carries at most one event, whatever number of descriptors are ready, and every
other ready descriptor is still queued after the call; with two ready
descriptors, the first wait reports one, the second wait the other, the third
times out. -/
theorem C6_wait_takes_at_most_one_event (pfd ms : Int) (avail : Bool) :
    (Epoll.poller_wait pfd avail ms).first_call = some (.epoll_wait pfd 1 ms) ∧
    (Kqueue.poller_wait pfd avail ms).first_call
      = some (.kevent pfd [] 1 (Kqueue.wait_timeout ms)) ∧
    (∀ (m m1 : Epoll.Model) (a : Answer),
      Epoll.step m (.epoll_wait pfd 1 ms) = some (a, m1) →
      a.epoll_events.length ≤ 1 ∧ a.ret ≤ 1 ∧
      ∀ (g : Int) (it : epoll_event), g ∈ m.rdllist → lookup g m.items = some it →
        (Epoll.armed it && readable m.pipes g) = true →
        g ∈ m1.rdllist ∨ a.epoll_events = [{ events := EPOLLIN, data_fd := it.data_fd }]) ∧
    (∀ (m m1 : Kqueue.Model) (a : Answer),
      Kqueue.step m (.kevent pfd [] 1 (Kqueue.wait_timeout ms)) = some (a, m1) →
      a.kevents.length ≤ 1 ∧ a.ret ≤ 1 ∧
      ∀ (g : Int) (kn : Polldiff.kevent), g ∈ m.queue → lookup g m.knotes = some kn →
        readable m.pipes g = true →
        g ∈ m1.queue ∨ a.kevents = [{ kn with data := ((lookup g m.pipes).getD 0 : Nat) }]) ∧
    Epoll.observe 7 (Epoll.setup_two .POLLER_EDGE).2 [.wait 10, .wait 10, .wait 10]
      = [(3, some 8), (5, some 4), (-1, none)] ∧
    Kqueue.observe 7 (Kqueue.setup_two .POLLER_EDGE).2 [.wait 10, .wait 10, .wait 10]
      = [(3, some 8), (5, some 4), (-1, none)] := by
  refine ⟨rfl, rfl, ?_, ?_, by decide, by decide⟩
  · intro m m1 a hs
    rw [Epoll.ep_step_wait] at hs
    by_cases h1 : m.epfd ≠ some pfd
    · rw [if_pos h1] at hs
      simp only [Option.some.injEq, Prod.mk.injEq] at hs
      obtain ⟨ha, hm⟩ := hs
      subst ha hm
      refine ⟨by simp, by decide, ?_⟩
      intro g it hg _ _
      exact Or.inl hg
    · rw [if_neg h1] at hs
      split at hs
      · exact absurd hs (by simp)
      · simp only [Option.some.injEq, Prod.mk.injEq] at hs
        obtain ⟨ha, hm⟩ := hs
        subst ha hm
        have hlen := Epoll.send_events_length m.pipes 1 m.rdllist m.items []
        refine ⟨hlen, by simp only; exact_mod_cast hlen, ?_⟩
        intro g it hg hit hready
        exact Epoll.send_events_one_keeps m.pipes m.rdllist m.items [] g it hg hit hready
  · intro m m1 a hs
    rw [Kqueue.kq_step_wait] at hs
    by_cases h1 : m.kq ≠ some pfd
    · rw [if_pos h1] at hs
      simp only [Option.some.injEq, Prod.mk.injEq] at hs
      obtain ⟨ha, hm⟩ := hs
      subst ha hm
      refine ⟨by simp, by decide, ?_⟩
      intro g it hg _ _
      exact Or.inl hg
    · rw [if_neg h1, if_neg (by simp [Kqueue.valid_wait_timeout])] at hs
      split at hs
      · exact absurd hs (by simp)
      · simp only [Option.some.injEq, Prod.mk.injEq] at hs
        obtain ⟨ha, hm⟩ := hs
        subst ha hm
        have hlen := Kqueue.scan_length m.pipes 1 m.queue m.knotes []
        refine ⟨hlen, by simp only; exact_mod_cast hlen, ?_⟩
        intro g kn hg hkn hready
        exact Kqueue.scan_one_keeps m.pipes m.queue m.knotes [] g kn hg hkn hready

/-- Witness of C6: the request of a wait of 10 ms on context 7. -/
theorem C6_wait_takes_at_most_one_event_witness :
    (Epoll.poller_wait 7 true 10).first_call = some (.epoll_wait 7 1 10) :=
  (C6_wait_takes_at_most_one_event 7 10 true).1

/-! ## The kernel models on a single registered pipe -/

/-- The epoll model gives every wait of the twelve tests of `poller.c` the
result the test asserts under `HAVE_EPOLL`. -/
theorem Epoll.model_passes_poller_c :
    Epoll.observe 5 (Epoll.setup_read .POLLER_EDGE).2 (test_edge_read_none 3)
      = [(3, some 8), (-1, none), (3, some 16)] ∧
    Epoll.observe 5 (Epoll.setup_read .POLLER_EDGE).2 (test_edge_read_some 3)
      = [(3, some 8), (-1, none), (3, some 12)] ∧
    Epoll.observe 5 (Epoll.setup_read .POLLER_EDGE).2 (test_edge_read_all 3)
      = [(3, some 8), (-1, none), (3, some 8)] ∧
    Epoll.observe 5 (Epoll.setup_read .POLLER_EDGE).2 (test_edge_read_more 3)
      = [(3, some 8), (3, some 8)] ∧
    Epoll.observe 5 (Epoll.setup_read .POLLER_LEVEL).2 (test_level_read_none 3)
      = [(3, some 8), (3, some 8), (3, some 16)] ∧
    Epoll.observe 5 (Epoll.setup_read .POLLER_LEVEL).2 (test_level_read_some 3)
      = [(3, some 8), (3, some 4), (3, some 12)] ∧
    Epoll.observe 5 (Epoll.setup_read .POLLER_LEVEL).2 (test_level_read_all 3)
      = [(3, some 8), (-1, none), (3, some 8)] ∧
    Epoll.observe 5 (Epoll.setup_read .POLLER_LEVEL).2 (test_level_read_more 3)
      = [(3, some 8), (3, some 8)] ∧
    Epoll.observe 5 (Epoll.setup_read .POLLER_ONESHOT).2 (test_once_read_none 3)
      = [(3, some 8), (-1, none), (-1, none), (3, some 16)] ∧
    Epoll.observe 5 (Epoll.setup_read .POLLER_ONESHOT).2 (test_once_read_some 3)
      = [(3, some 8), (-1, none), (3, some 4), (3, some 4), (3, some 12)] ∧
    Epoll.observe 5 (Epoll.setup_read .POLLER_ONESHOT).2 (test_once_read_all 3)
      = [(3, some 8), (-1, none), (-1, none), (3, some 8)] ∧
    Epoll.observe 5 (Epoll.setup_read .POLLER_ONESHOT).2 (test_once_read_more 3)
      = [(3, some 8), (-1, none), (3, some 8)] := by
  refine ⟨?_, ?_, ?_, ?_, ?_, ?_, ?_, ?_, ?_, ?_, ?_, ?_⟩ <;> decide

/-- The kqueue model gives every wait of the twelve tests of `poller.c` the
result the test asserts under `HAVE_KQUEUE`. -/
theorem Kqueue.model_passes_poller_c_kqueue :
    Kqueue.observe 5 (Kqueue.setup_read .POLLER_EDGE).2 (test_edge_read_none 3)
      = [(3, some 8), (-1, none), (3, some 16)] ∧
    Kqueue.observe 5 (Kqueue.setup_read .POLLER_EDGE).2 (test_edge_read_some 3)
      = [(3, some 8), (3, some 4), (3, some 12)] ∧
    Kqueue.observe 5 (Kqueue.setup_read .POLLER_EDGE).2 (test_edge_read_all 3)
      = [(3, some 8), (-1, none), (3, some 8)] ∧
    Kqueue.observe 5 (Kqueue.setup_read .POLLER_EDGE).2 (test_edge_read_more 3)
      = [(3, some 8), (3, some 8)] ∧
    Kqueue.observe 5 (Kqueue.setup_read .POLLER_LEVEL).2 (test_level_read_none 3)
      = [(3, some 8), (3, some 8), (3, some 16)] ∧
    Kqueue.observe 5 (Kqueue.setup_read .POLLER_LEVEL).2 (test_level_read_some 3)
      = [(3, some 8), (3, some 4), (3, some 12)] ∧
    Kqueue.observe 5 (Kqueue.setup_read .POLLER_LEVEL).2 (test_level_read_all 3)
      = [(3, some 8), (-1, none), (3, some 8)] ∧
    Kqueue.observe 5 (Kqueue.setup_read .POLLER_LEVEL).2 (test_level_read_more 3)
      = [(3, some 8), (3, some 8)] ∧
    Kqueue.observe 5 (Kqueue.setup_read .POLLER_ONESHOT).2 (test_once_read_none 3)
      = [(3, some 8), (-1, none), (-1, none), (3, some 16)] ∧
    Kqueue.observe 5 (Kqueue.setup_read .POLLER_ONESHOT).2 (test_once_read_some 3)
      = [(3, some 8), (-1, none), (3, some 4), (3, some 4), (3, some 12)] ∧
    Kqueue.observe 5 (Kqueue.setup_read .POLLER_ONESHOT).2 (test_once_read_all 3)
      = [(3, some 8), (-1, none), (-1, none), (3, some 8)] ∧
    Kqueue.observe 5 (Kqueue.setup_read .POLLER_ONESHOT).2 (test_once_read_more 3)
      = [(3, some 8), (-1, none), (3, some 8)] := by
  refine ⟨?_, ?_, ?_, ?_, ?_, ?_, ?_, ?_, ?_, ?_, ?_, ?_⟩ <;> decide

/-- The state `setup_read` leaves is the registered single-pipe state with
read end 3 and context 5, on both backends. -/
theorem setup_read_eq_start (mode : poller_mode) :
    Epoll.setup_read mode = (.ok (5, 3), Epoll.start 6 5 3 mode) ∧
    Kqueue.setup_read mode = (.ok (5, 3), Kqueue.start 6 5 3 mode) := by
  cases mode <;> exact ⟨by decide, by decide⟩

/-! ## C2: one-shot registrations -/

end Polldiff
